import Mathlib

/-!
Verification development for the ai-newsletter-system backend.

Shallow embedding of:
  - src/backend/src/content_generator.py (ContentGenerator)
  - src/backend/src/scheduler.py        (NewsletterScheduler)
  - src/backend/src/main.py             (generate-newsletters HTTP endpoint)

External effects (the Perplexity HTTP call, the sqlite store, wall-clock
time) are modelled as explicit environment and fault parameters; the pure
control flow and data flow are translated from the Python source.
-/

namespace AINewsletter

/-! ## Content generator: src/backend/src/content_generator.py -/

/-- Outcome of the HTTP POST to the Perplexity API for a given prompt:
a 200 response whose parsed body yields a content string, a non-200
response, or an exception raised while calling or parsing
(requests exception, timeout, JSON/key errors). -/
inductive ApiOutcome where
  | success (body : String)
  | httpError (status : Nat) (text : String)
  | exn (msg : String)
deriving Repr, DecidableEq

/-- Environment of a `ContentGenerator` instance: the `PERPLEXITY_API_KEY`
value read in `__init__`, the outcome of the network call as a function of
the request prompt, and the `datetime.now()` readings used for
`isoformat()` and `strftime("%B %d, %Y")`. -/
structure ContentEnv where
  api_key : Option String
  apiOutcome : String → ApiOutcome
  nowIso : String
  nowDateStr : String

/-- `ContentGenerator.is_configured`:
`self.api_key is not None and self.api_key.strip() != ""`. -/
def ContentEnv.is_configured (env : ContentEnv) : Bool :=
  match env.api_key with
  | none => false
  | some k => decide (k.trim ≠ "")

/-- `ContentGenerator._create_prompt`: dictionary lookup of a topic-specific
prompt, with a generic default. `max_words` is interpolated. -/
def create_prompt (topic : String) (max_words : Nat) : String :=
  let mw := toString max_words
  if topic = "LLMs released this week" then
    "What are the most significant large language model releases, updates, or announcements from the past week? Include specific model names, capabilities, and companies involved. Keep response under " ++ mw ++ " words."
  else if topic = "Coding tools and IDEs" then
    "What are the latest updates, new features, or releases in coding tools, IDEs, and developer environments from the past week? Include specific tool names and new capabilities. Keep response under " ++ mw ++ " words."
  else if topic = "Agentic AI systems" then
    "What are the recent developments in autonomous AI agents and agentic AI systems from the past week? Include new frameworks, platforms, or significant implementations. Keep response under " ++ mw ++ " words."
  else if topic = "AI tools for business workflows" then
    "What are the newest AI tools and platforms for business automation and productivity released or updated this week? Include specific tools and their business applications. Keep response under " ++ mw ++ " words."
  else if topic = "AI tools for personal productivity" then
    "What are the latest AI-powered personal productivity tools, apps, and features released this week? Include specific tools and their capabilities. Keep response under " ++ mw ++ " words."
  else if topic = "Computer vision and image AI" then
    "What are the recent developments in computer vision, image generation, and visual AI from the past week? Include new models, tools, or significant research. Keep response under " ++ mw ++ " words."
  else if topic = "Natural language processing" then
    "What are the latest advancements in natural language processing, text analysis, and language AI from the past week? Include new techniques, tools, or applications. Keep response under " ++ mw ++ " words."
  else if topic = "AI research papers" then
    "What are the most important AI research papers published or highlighted this week? Include paper titles, key findings, and institutions involved. Keep response under " ++ mw ++ " words."
  else if topic = "AI startup news" then
    "What are the significant AI startup funding announcements, launches, or major developments from the past week? Include company names, funding amounts, and what they\x27re building. Keep response under " ++ mw ++ " words."
  else if topic = "AI ethics and regulation" then
    "What are the latest developments in AI ethics, governance, policy, and regulation from the past week? Include specific policies, guidelines, or regulatory actions. Keep response under " ++ mw ++ " words."
  else
    "Provide the latest news and updates about " ++ topic ++ " from the past week in under " ++ mw ++ " words."

/-- The per-topic canned text of `ContentGenerator._get_fallback_content`. -/
def fallback_text (topic : String) : String :=
  if topic = "LLMs released this week" then
    "Stay tuned for the latest large language model releases. This week\x27s updates will include new model announcements, capability improvements, and performance benchmarks from leading AI companies."
  else if topic = "Coding tools and IDEs" then
    "Discover the newest coding tools and IDE features that are enhancing developer productivity. From AI-powered code completion to advanced debugging tools, we\x27ll cover the latest innovations in development environments."
  else if topic = "Agentic AI systems" then
    "Explore the cutting-edge world of autonomous AI agents and agentic systems. Learn about new frameworks, platforms, and implementations that are pushing the boundaries of AI autonomy."
  else if topic = "AI tools for business workflows" then
    "Transform your business processes with the latest AI-powered automation tools. We\x27ll highlight new platforms and solutions that are revolutionizing workplace productivity and efficiency."
  else if topic = "AI tools for personal productivity" then
    "Boost your personal productivity with AI-powered assistants and tools. From smart scheduling to automated task management, discover the latest apps that can streamline your daily workflows."
  else if topic = "Computer vision and image AI" then
    "Dive into the latest advancements in computer vision and image AI. From breakthrough models to practical applications, we\x27ll cover the innovations shaping visual AI technology."
  else if topic = "Natural language processing" then
    "Explore recent developments in natural language processing and text AI. Learn about new techniques, models, and applications that are advancing our understanding of human language."
  else if topic = "AI research papers" then
    "Access summaries of the most impactful AI research papers. We\x27ll break down complex findings from leading institutions and explain their potential real-world implications."
  else if topic = "AI startup news" then
    "Get insights into the dynamic AI startup ecosystem. From funding announcements to product launches, stay informed about the companies building tomorrow\x27s AI solutions."
  else if topic = "AI ethics and regulation" then
    "Stay informed about AI governance, ethics, and policy developments. Learn about new regulations, guidelines, and frameworks shaping the responsible development of AI technology."
  else
    "Latest updates on " ++ topic ++ " will be available soon. Subscribe to stay informed about the most important developments in this area."

/-- The `{content, source, generated_at}` dict returned by
`generate_content_for_topic` and `_get_fallback_content`. -/
structure ContentData where
  content : String
  source : String
  generated_at : String
deriving Repr, DecidableEq

/-- `ContentGenerator._get_fallback_content`. -/
def get_fallback_content (env : ContentEnv) (topic : String) : ContentData :=
  { content := fallback_text topic
    source := "fallback"
    generated_at := env.nowIso }

/-- `ContentGenerator.generate_content_for_topic`. When not configured it
returns fallback content; otherwise the HTTP POST is attempted and a 200
response yields the trimmed body with source `perplexity_ai`, while a
non-200 response or any exception (the whole call and parse are inside
`try`) degrades to fallback content. Total: never raises past its boundary.
`max_words` defaults to 200 in the source; the only caller uses the
default. -/
def generate_content_for_topic (env : ContentEnv) (topic : String)
    (max_words : Nat) : ContentData :=
  if env.is_configured = false then
    get_fallback_content env topic
  else
    match env.apiOutcome (create_prompt topic max_words) with
    | ApiOutcome.success body =>
        { content := body.trim
          source := "perplexity_ai"
          generated_at := env.nowIso }
    | ApiOutcome.httpError _ _ => get_fallback_content env topic
    | ApiOutcome.exn _ => get_fallback_content env topic

/-- One element of the `sections` list built by
`generate_newsletter_content`. -/
structure NewsSection where
  topic : String
  content : String
  source : String
  generated_at : String
deriving Repr, DecidableEq

/-- The newsletter dict returned by `generate_newsletter_content`. -/
structure NewsletterContent where
  subject : String
  generated_at : String
  sections : List NewsSection
  topics_count : Nat
deriving Repr, DecidableEq

/-- `ContentGenerator.generate_newsletter_content`: one section per topic,
in input order, then the wrapper dict with `topics_count = len(topics)`. -/
def generate_newsletter_content (env : ContentEnv) (topics : List String) :
    NewsletterContent :=
  let sections := topics.map (fun t =>
    let cd := generate_content_for_topic env t 200
    { topic := t
      content := cd.content
      source := cd.source
      generated_at := cd.generated_at })
  { subject := "Weekly AI Newsletter - " ++ env.nowDateStr
    generated_at := env.nowIso
    sections := sections
    topics_count := topics.length }

/-! ## Scheduler lifecycle: src/backend/src/scheduler.py

Time is measured in minutes (`Nat`). The `schedule` library is modelled by
the list of registered jobs, each carried as its computed next firing time;
`schedule.every().monday.at("09:00")` registers one weekly rule. -/

/-- Minutes in one week. -/
def weekMinutes : Nat := 7 * 24 * 60

/-- Offset of Monday 09:00 within a week whose origin is Monday 00:00. -/
def mondayNineOffset : Nat := 9 * 60

/-- Models the `schedule` library computing the next firing time of the
weekly Monday-09:00 rule: the least instant strictly in the future (or now)
congruent to Monday 09:00 modulo one week. -/
def weeklyNextRun (clock : Nat) : Nat :=
  let r := clock % weekMinutes
  if r < mondayNineOffset then clock - r + mondayNineOffset
  else clock - r + weekMinutes + mondayNineOffset

/-- The mutable fields of `NewsletterScheduler` together with the
`schedule` module's job registry (`jobs` holds each registered job's
`next_run` firing time). The background thread handle is not part of the
observable state the claims quantify over. -/
structure SchedulerState where
  is_running : Bool
  last_run : Option Nat
  next_run : Option Nat
  jobs : List Nat
deriving Repr, DecidableEq

/-- State after `__init__` in a fresh process: not running, no runs
recorded, empty `schedule` registry. -/
def initialState : SchedulerState :=
  { is_running := false, last_run := none, next_run := none, jobs := [] }

/-- Python `min(job.next_run for job in schedule.jobs)` over a non-empty
registry; `none` when the registry is empty. -/
def earliestJob : List Nat → Option Nat
  | [] => none
  | j :: rest => some (rest.foldl Nat.min j)

/-- `NewsletterScheduler._update_next_run`: `next_run` becomes the earliest
firing among registered jobs, or `None` when there are none. -/
def update_next_run (s : SchedulerState) : SchedulerState :=
  { s with next_run := earliestJob s.jobs }

/-- `NewsletterScheduler.start`: refuse when already running; otherwise
clear the registry, register the single weekly Monday-09:00 rule, compute
`next_run`, set `is_running` and launch the daemon thread (the thread
launch has no effect on the modelled state). The scheduling calls in the
`try` block are pure registry operations and cannot raise here, so the
`except` branch of `start` is not reachable in the model. -/
def start (clock : Nat) (s : SchedulerState) :
    (Bool × String) × SchedulerState :=
  if s.is_running then
    ((false, "Scheduler is already running"), s)
  else
    let s1 := { s with jobs := [weeklyNextRun clock] }
    let s2 := update_next_run s1
    ((true, "Scheduler started successfully"), { s2 with is_running := true })

/-- `NewsletterScheduler.stop`: refuse when not running; otherwise clear
the running flag, the registry and `next_run`. -/
def stop (s : SchedulerState) : (Bool × String) × SchedulerState :=
  if s.is_running = false then
    ((false, "Scheduler is not running"), s)
  else
    ((true, "Scheduler stopped successfully"),
      { s with is_running := false, jobs := [], next_run := none })

/-- The dict returned by `NewsletterScheduler.get_status`. -/
structure SchedulerStatus where
  running : Bool
  last_run : Option Nat
  next_run : Option Nat
  scheduled_jobs : Nat
deriving Repr, DecidableEq

/-- `NewsletterScheduler.get_status`: pure read of the bookkeeping
fields. -/
def get_status (s : SchedulerState) : SchedulerStatus :=
  { running := s.is_running
    last_run := s.last_run
    next_run := s.next_run
    scheduled_jobs := s.jobs.length }

/-- One API call in a lifecycle interaction sequence. -/
inductive SchedulerCall where
  | start (clock : Nat)
  | stop
  | status
deriving Repr, DecidableEq

/-- State transition of one lifecycle call (`status` reads only). -/
def applyCall (s : SchedulerState) : SchedulerCall → SchedulerState
  | SchedulerCall.start clock => (start clock s).2
  | SchedulerCall.stop => (stop s).2
  | SchedulerCall.status => s

/-- State reached from the initial state by a sequence of lifecycle
calls. -/
def runCalls (calls : List SchedulerCall) : SchedulerState :=
  calls.foldl applyCall initialState

/-! ## json.loads on stored topic lists

The scheduler calls `json.loads(topics_json)` on the stored serialization.
The model parses JSON arrays of strings (the only shape the system stores);
`none` models `json.loads` raising `ValueError`. -/

/-- Drop leading JSON whitespace. -/
def skipWs : List Char → List Char
  | c :: cs =>
      if c = ' ' ∨ c = '\t' ∨ c = '\n' ∨ c = '\r' then skipWs cs else c :: cs
  | [] => []

/-- Decode one escaped character after a backslash (simplified to the
escapes `json.dumps` emits for the stored topic strings). -/
def unescapeChar (c : Char) : Char :=
  if c = 'n' then '\n' else if c = 't' then '\t' else c

/-- Parse the body of a JSON string after its opening quote; returns the
decoded string and the rest of the input. Fuel bounds recursion. -/
def parseStringBody : Nat → List Char → Option (String × List Char)
  | 0, _ => none
  | _ + 1, [] => none
  | _ + 1, '"' :: rest => some ("", rest)
  | fuel + 1, '\\' :: c :: rest =>
      match parseStringBody fuel rest with
      | some (s, r) => some ((unescapeChar c).toString ++ s, r)
      | none => none
  | fuel + 1, c :: rest =>
      match parseStringBody fuel rest with
      | some (s, r) => some (c.toString ++ s, r)
      | none => none

/-- Parse the items of a non-empty JSON string array after the opening
bracket, accumulating decoded items. -/
def parseArrayItems (acc : List String) :
    Nat → List Char → Option (List String)
  | 0, _ => none
  | fuel + 1, cs =>
      match skipWs cs with
      | '"' :: rest =>
          match parseStringBody rest.length rest with
          | some (s, r) =>
              match skipWs r with
              | ',' :: r2 => parseArrayItems (acc ++ [s]) fuel r2
              | ']' :: r2 =>
                  if skipWs r2 = [] then some (acc ++ [s]) else none
              | _ => none
          | none => none
      | _ => none

/-- Models `json.loads` restricted to JSON arrays of strings; `none` when
`json.loads` would raise. -/
def parseJsonStringList (s : String) : Option (List String) :=
  match skipWs s.toList with
  | '[' :: rest =>
      match skipWs rest with
      | ']' :: r2 => if skipWs r2 = [] then some [] else none
      | _ => parseArrayItems [] (rest.length + 1) rest
  | _ => none

/-! ## Generation pass: NewsletterScheduler._generate_and_send_newsletters

The sqlite store is the pair (active subscriber rows, newsletter_logs
rows). sqlite transaction semantics: `INSERT` statements are staged on the
connection and become durable only at `conn.commit()`; a pass that raises
before the commit leaves the committed log unchanged. Faults of the
external store are injected through `FaultModel`. -/

/-- One row of the `newsletter_logs` table. `sent_at` carries the value of
`DATE(CURRENT_TIMESTAMP)` at insert time (day granularity, which is all
the endpoint's `DATE(sent_at)` filter reads). -/
structure LogRow where
  subscriber_email : String
  topics : String
  content : String
  sent_at : Nat
  success : Bool
deriving Repr, DecidableEq

/-- The durable sqlite state the pass touches: the active subscriber rows
returned by `SELECT email, topics FROM subscribers WHERE active = 1`, and
the committed `newsletter_logs` rows. -/
structure StoreDB where
  subscribers : List (String × String)
  newsletter_logs : List LogRow
deriving Repr, DecidableEq

/-- Injected failures of the sqlite store: the connect/SELECT raising
(store unreachable), the n-th `INSERT` of the pass raising, or the final
`conn.commit()` raising. -/
structure FaultModel where
  fetchFails : Bool
  insertFailsAt : Option Nat
  commitFails : Bool
deriving Repr, DecidableEq

/-- A run with a healthy store. -/
def noFaults : FaultModel :=
  { fetchFails := false, insertFailsAt := none, commitFails := false }

/-- `topic_groups`: Python-dict grouping with insertion order. Appends the
email to the entry holding exactly this serialized key; creates the entry
at the end when the key is absent. -/
def addToGroup : List (String × List String) → String → String →
    List (String × List String)
  | [], tj, email => [(tj, [email])]
  | g :: rest, tj, email =>
      if g.1 = tj then (g.1, g.2 ++ [email]) :: rest
      else g :: addToGroup rest tj email

/-- The grouping loop over the fetched subscriber rows: key is the stored
`topics` JSON string compared byte-for-byte. -/
def buildGroups (subs : List (String × String)) :
    List (String × List String) :=
  subs.foldl (fun acc p => addToGroup acc p.2 p.1) []

/-- Counters observable per pass: Content Provider calls
(`generate_newsletter_content`), HTML renders (`generate_html_content`,
executed only when the email service is configured), dispatch attempts
(the source performs none: the dispatch is a `print` placeholder), and the
`newsletters_generated` counter. -/
structure PassStats where
  providerCalls : Nat
  htmlRenders : Nat
  dispatchCalls : Nat
  newsletters_generated : Nat
deriving Repr, DecidableEq

/-- Counters at the start of a pass. -/
def zeroStats : PassStats :=
  { providerCalls := 0, htmlRenders := 0, dispatchCalls := 0,
    newsletters_generated := 0 }

/-- Environment of one pass: content generator environment, the
`email_service.is_configured()` probe, `datetime.now()` in minutes, and
the current day for `sent_at`. -/
structure PassEnv where
  contentEnv : ContentEnv
  emailConfigured : Bool
  now : Nat
  today : Nat

/-- Models `json.dumps` applied to one generated section (injective
textual encoding; no claim inspects this string). -/
def dumpsSection (s : NewsSection) : String :=
  "\x7b\"topic\": \"" ++ s.topic ++ "\", \"content\": \"" ++ s.content ++
    "\", \"source\": \"" ++ s.source ++ "\", \"generated_at\": \"" ++
    s.generated_at ++ "\"\x7d"

/-- Models `json.dumps(content)` for the `content` column of a log row. -/
def dumpsContent (c : NewsletterContent) : String :=
  "\x7b\"subject\": \"" ++ c.subject ++ "\", \"generated_at\": \"" ++
    c.generated_at ++ "\", \"sections\": [" ++
    String.intercalate ", " (c.sections.map dumpsSection) ++
    "], \"topics_count\": " ++ toString c.topics_count ++ "\x7d"

/-- The inner `for email in emails` loop of one topic group: stage one
`INSERT` per member and bump `newsletters_generated`. `idx` numbers the
inserts of the whole pass for fault injection; an injected insert fault
models the Run Log raising mid-loop. -/
def insertRows (f : FaultModel) (tj contentStr : String) (today : Nat) :
    List String → Nat → List LogRow → Nat →
    Except String (List LogRow × Nat × Nat)
  | [], idx, staged, count => Except.ok (staged, idx, count)
  | email :: rest, idx, staged, count =>
      if f.insertFailsAt = some idx then
        Except.error "INSERT INTO newsletter_logs raised"
      else
        insertRows f tj contentStr today rest (idx + 1)
          (staged ++ [{ subscriber_email := email
                        topics := tj
                        content := contentStr
                        sent_at := today
                        success := true }])
          (count + 1)

/-- The `for topics_json, emails in topic_groups.items()` loop:
`json.loads` the key (raising aborts the pass), one provider call per
group, an HTML render when the email service is configured (dispatch
itself is only a `print` in the source), then the insert loop. -/
def processGroups (env : PassEnv) (f : FaultModel) :
    List (String × List String) → Nat → List LogRow → PassStats →
    Except String (List LogRow × PassStats × Nat)
  | [], _, staged, stats => Except.ok (staged, stats, 0)
  | g :: rest, idx, staged, stats =>
      match parseJsonStringList g.1 with
      | none => Except.error "json.loads raised ValueError"
      | some topics =>
          let content := generate_newsletter_content env.contentEnv topics
          let contentStr := dumpsContent content
          let stats1 := { stats with
            providerCalls := stats.providerCalls + 1
            htmlRenders :=
              stats.htmlRenders + (if env.emailConfigured then 1 else 0) }
          match insertRows f g.1 contentStr env.today g.2 idx staged
              stats1.newsletters_generated with
          | Except.error e => Except.error e
          | Except.ok (staged2, idx2, count2) =>
              processGroups env f rest idx2 staged2
                { stats1 with newsletters_generated := count2 }

/-- The body of the `try` block of `_generate_and_send_newsletters` after
`last_run` is set: fetch, early return on no subscribers, group, generate
and stage, then commit everything in one transaction. `Except.error`
models an exception reaching the pass boundary; the committed log is
extended only on the `conn.commit()` that succeeds. -/
def generate_and_send_inner (env : PassEnv) (db : StoreDB)
    (f : FaultModel) : Except String (StoreDB × PassStats) :=
  if f.fetchFails then
    Except.error "sqlite store unreachable"
  else if db.subscribers = [] then
    Except.ok (db, zeroStats)
  else
    match processGroups env f (buildGroups db.subscribers) 0 [] zeroStats with
    | Except.error e => Except.error e
    | Except.ok (staged, stats, _) =>
        if f.commitFails then
          Except.error "conn.commit raised"
        else
          Except.ok
            ({ db with newsletter_logs := db.newsletter_logs ++ staged },
              stats)

/-- Result of one pass: the scheduler state, the durable store, and the
pass counters (`none` when an exception was caught by the pass's own
`except` handler). -/
structure PassOutcome where
  state : SchedulerState
  db : StoreDB
  stats : Option PassStats

/-- `NewsletterScheduler._generate_and_send_newsletters`: sets
`last_run = now` first, runs the body, and catches ANY exception at its
own boundary (printing it); on such an exception the uncommitted staged
inserts are rolled back with the connection, so the durable log is
unchanged. -/
def generate_and_send_newsletters (env : PassEnv) (db : StoreDB)
    (f : FaultModel) (s : SchedulerState) : PassOutcome :=
  let s1 := { s with last_run := some env.now }
  match generate_and_send_inner env db f with
  | Except.ok (db2, stats) => { state := s1, db := db2, stats := some stats }
  | Except.error _ => { state := s1, db := db, stats := none }

/-- `NewsletterScheduler.manual_run`: wraps the pass in `try/except`, but
the pass's own handler already catches every exception, so the wrapper
always observes a normal return and reports success. -/
def manual_run (env : PassEnv) (db : StoreDB) (f : FaultModel)
    (s : SchedulerState) : (Bool × String) × SchedulerState × StoreDB :=
  let o := generate_and_send_newsletters env db f s
  ((true, "Newsletter generation completed successfully"), o.state, o.db)

/-! ## HTTP endpoint: generate_newsletters in src/backend/src/main.py -/

/-- `SELECT COUNT(*) FROM newsletter_logs WHERE DATE(sent_at) =
DATE("now")`. -/
def countTodayLogs (db : StoreDB) (today : Nat) : Nat :=
  (db.newsletter_logs.filter (fun r => r.sent_at = today)).length

/-- `SELECT COUNT(DISTINCT subscriber_email) FROM newsletter_logs WHERE
DATE(sent_at) = DATE("now")`. -/
def countTodaySubscribers (db : StoreDB) (today : Nat) : Nat :=
  (((db.newsletter_logs.filter (fun r => r.sent_at = today)).map
      (fun r => r.subscriber_email)).dedup).length

/-- The JSON body returned by the `/api/generate-newsletters` handler. -/
structure GenerateResponse where
  success : Bool
  message : String
  newsletters_generated : Option Nat
  subscribers_reached : Option Nat
deriving Repr, DecidableEq

/-- The `/api/generate-newsletters` handler: run `manual_run`, then on
success count ALL of today's log rows (not only this pass's rows) for
`newsletters_generated` and `subscribers_reached`. -/
def generate_newsletters_endpoint (env : PassEnv) (db : StoreDB)
    (f : FaultModel) (s : SchedulerState) :
    GenerateResponse × SchedulerState × StoreDB :=
  let r := manual_run env db f s
  let success := r.1.1
  let message := r.1.2
  let s2 := r.2.1
  let db2 := r.2.2
  if success then
    ({ success := true
       message := message
       newsletters_generated := some (countTodayLogs db2 env.today)
       subscribers_reached := some (countTodaySubscribers db2 env.today) },
      s2, db2)
  else
    ({ success := false, message := message,
       newsletters_generated := none, subscribers_reached := none },
      s2, db2)

/-! ## Derived notions and concrete fixtures used by the theorems -/

/-- Accumulate a key into a list of distinct keys, first occurrence
order (the key set of a Python dict built by insertion). -/
def keyStep (ks : List String) (k : String) : List String :=
  if k ∈ ks then ks else ks ++ [k]

/-- The distinct serializations of a list of stored topic strings, in
first-occurrence order. -/
def distinctKeys (l : List String) : List String :=
  l.foldl keyStep []

/-- The log rows one topic group contributes to the pass (one per member
email, `success = true`, content generated from the parsed topic list). -/
def groupRows (env : PassEnv) (g : String × List String) : List LogRow :=
  g.2.map (fun e =>
    { subscriber_email := e
      topics := g.1
      content := dumpsContent (generate_newsletter_content env.contentEnv
        ((parseJsonStringList g.1).getD []))
      sent_at := env.today
      success := true })

/-- The pass counters after processing a list of topic groups. -/
def groupStats (env : PassEnv) (stats : PassStats)
    (groups : List (String × List String)) : PassStats :=
  { providerCalls := stats.providerCalls + groups.length
    htmlRenders :=
      stats.htmlRenders + (if env.emailConfigured then groups.length else 0)
    dispatchCalls := stats.dispatchCalls
    newsletters_generated :=
      stats.newsletters_generated + (groups.map (fun g => g.2.length)).sum }

/-- The state invariant of the scheduler lifecycle: stopped means no
`next_run` and an empty registry; running means exactly one registered
rule with `next_run` equal to the earliest firing among the registered
rules. -/
def SchedInv (s : SchedulerState) : Prop :=
  (s.is_running = false → s.next_run = none ∧ s.jobs.length = 0)
  ∧ (s.is_running = true →
      s.jobs.length = 1 ∧ s.next_run = earliestJob s.jobs ∧
        s.next_run ≠ none)

/-- A content environment with no API key whose network call would fail
anyway: the degraded/offline mode. -/
def apiDownEnv : ContentEnv :=
  { api_key := none
    apiOutcome := fun _ => ApiOutcome.exn "connection error"
    nowIso := "2026-10-12T09:00:00"
    nowDateStr := "October 12, 2026" }

/-- A pass environment with unconfigured providers, run at minute 99 of
day 7. -/
def samplePassEnv : PassEnv :=
  { contentEnv := apiDownEnv, emailConfigured := false, now := 99, today := 7 }

/-- The spec §8 scenario: three active subscribers, two sharing a stored
serialization and one holding the same topics in the opposite order. -/
def sampleDb : StoreDB :=
  { subscribers :=
      [("a@x.com", "[\"A\",\"B\"]"), ("b@x.com", "[\"A\",\"B\"]"),
        ("c@x.com", "[\"B\",\"A\"]")]
    newsletter_logs := [] }

/-- A store with no active subscribers and one log row already written
earlier on day 7. -/
def emptySubsDb : StoreDB :=
  { subscribers := []
    newsletter_logs :=
      [{ subscriber_email := "old@x.com", topics := "[\"A\"]",
         content := "c", sent_at := 7, success := true }] }

/-- A store with no active subscribers and an empty log. -/
def emptyLogDb : StoreDB := { subscribers := [], newsletter_logs := [] }

/-- Store fault: the connect/SELECT raises (Subscription Store
unreachable). -/
def fetchFault : FaultModel :=
  { fetchFails := true, insertFailsAt := none, commitFails := false }

/-- Store fault: the second `INSERT` of the pass raises (Run Log lost
mid-pass, after one row was already staged). -/
def insertFault : FaultModel :=
  { fetchFails := false, insertFailsAt := some 1, commitFails := false }

/-- Store fault: the final `conn.commit()` raises (crash at the end of the
pass, all rows staged but none committed). -/
def commitFault : FaultModel :=
  { fetchFails := false, insertFailsAt := none, commitFails := true }

/-! ## Lifecycle lemmas -/

theorem schedInv_initial : SchedInv initialState := by
  constructor
  · intro _; exact ⟨rfl, rfl⟩
  · intro h; simp [initialState] at h

theorem schedInv_applyCall (s : SchedulerState) (c : SchedulerCall)
    (h : SchedInv s) : SchedInv (applyCall s c) := by
  cases c with
  | start clock =>
      by_cases hr : s.is_running
      · simpa [applyCall, start, hr] using h
      · refine ⟨?_, ?_⟩ <;> simp [applyCall, start, hr, update_next_run, earliestJob]
  | stop =>
      by_cases hr : s.is_running
      · refine ⟨?_, ?_⟩ <;> simp [applyCall, stop, hr, earliestJob]
      · simpa [applyCall, stop, hr] using h
  | status => simpa [applyCall] using h

theorem schedInv_foldl (calls : List SchedulerCall) :
    ∀ s : SchedulerState, SchedInv s → SchedInv (calls.foldl applyCall s) := by
  induction calls with
  | nil => intro s h; simpa using h
  | cons c rest ih =>
      intro s h
      exact ih (applyCall s c) (schedInv_applyCall s c h)

theorem applyCall_last_run (s : SchedulerState) (c : SchedulerCall) :
    (applyCall s c).last_run = s.last_run := by
  cases c with
  | start clock =>
      by_cases hr : s.is_running <;>
        simp [applyCall, start, hr, update_next_run]
  | stop =>
      by_cases hr : s.is_running <;> simp [applyCall, stop, hr]
  | status => rfl

/-! ## Claim theorems: scheduler lifecycle -/

/-- C3: in every state reachable from the initial state by `start`, `stop`
and `status` calls, not running implies `next_run = none` and an empty job
registry, and running implies exactly one registered rule with `next_run`
equal to the earliest firing among the registered rules (in particular
non-none). -/
theorem claim_C3 (calls : List SchedulerCall) : SchedInv (runCalls calls) :=
  schedInv_foldl calls initialState schedInv_initial

/-- Witness for C3 at the concrete sequences `[start 5]` and
`[start 5, stop]`. -/
theorem claim_C3_witness :
    ((runCalls [SchedulerCall.start 5]).jobs.length = 1
      ∧ (runCalls [SchedulerCall.start 5]).next_run
          = earliestJob (runCalls [SchedulerCall.start 5]).jobs)
    ∧ (runCalls [SchedulerCall.start 5, SchedulerCall.stop]).next_run = none
    ∧ (runCalls [SchedulerCall.start 5, SchedulerCall.stop]).jobs.length = 0 :=
  ⟨⟨((claim_C3 [SchedulerCall.start 5]).2 (by decide)).1,
    ((claim_C3 [SchedulerCall.start 5]).2 (by decide)).2.1⟩,
    ((claim_C3 [SchedulerCall.start 5, SchedulerCall.stop]).1 (by decide)).1,
    ((claim_C3 [SchedulerCall.start 5, SchedulerCall.stop]).1 (by decide)).2⟩

/-- C4: calling `start` while already running returns the failure message
and leaves the whole state (including `jobs`, `next_run` and `last_run`)
unchanged. -/
theorem claim_C4 (clock : Nat) (s : SchedulerState)
    (h : s.is_running = true) :
    start clock s = ((false, "Scheduler is already running"), s) := by
  simp [start, h]

/-- Witness for C4 at a concrete running state. -/
theorem claim_C4_witness :
    start 7 { is_running := true, last_run := some 3, next_run := some 9,
              jobs := [9] }
      = ((false, "Scheduler is already running"),
          { is_running := true, last_run := some 3, next_run := some 9,
            jobs := [9] }) :=
  claim_C4 7 _ rfl

/-- C9: `start` and `stop` (and any lifecycle call sequence) leave
`last_run` unchanged; only a generation pass writes it, setting it to the
pass's start instant. -/
theorem claim_C9 :
    (∀ clock s, (start clock s).2.last_run = s.last_run)
    ∧ (∀ s, (stop s).2.last_run = s.last_run)
    ∧ (∀ (calls : List SchedulerCall) s,
        (calls.foldl applyCall s).last_run = s.last_run)
    ∧ (∀ env db f s,
        (generate_and_send_newsletters env db f s).state.last_run
          = some env.now) := by
  refine ⟨?_, ?_, ?_, ?_⟩
  · intro clock s
    by_cases hr : s.is_running <;> simp [start, hr, update_next_run]
  · intro s
    by_cases hr : s.is_running <;> simp [stop, hr]
  · intro calls
    induction calls with
    | nil => intro s; rfl
    | cons c rest ih =>
        intro s
        rw [List.foldl_cons, ih (applyCall s c), applyCall_last_run]
  · intro env db f s
    cases h : generate_and_send_inner env db f <;>
      simp [generate_and_send_newsletters, h]

/-! ## Claim theorems: content generator -/

/-- C6: per-topic generation never yields anything but fallback-marked
content on any failure mode (missing credential, non-success HTTP
response, exception while calling or parsing); with the provider
unconfigured every section of a generated newsletter is fallback-marked,
and `manual_run` still reports success. -/
theorem claim_C6 (cenv : ContentEnv) (topic : String) (mw : Nat) :
    (cenv.is_configured = false →
      (generate_content_for_topic cenv topic mw).source = "fallback")
    ∧ (∀ st txt,
        cenv.apiOutcome (create_prompt topic mw) = ApiOutcome.httpError st txt →
        (generate_content_for_topic cenv topic mw).source = "fallback")
    ∧ (∀ m, cenv.apiOutcome (create_prompt topic mw) = ApiOutcome.exn m →
        (generate_content_for_topic cenv topic mw).source = "fallback")
    ∧ (cenv.is_configured = false → ∀ topics,
        ∀ sec ∈ (generate_newsletter_content cenv topics).sections,
          sec.source = "fallback")
    ∧ (∀ env db f s, (manual_run env db f s).1.1 = true) := by
  refine ⟨?_, ?_, ?_, ?_, ?_⟩
  · intro h; simp [generate_content_for_topic, h, get_fallback_content]
  · intro st txt heq
    by_cases hc : cenv.is_configured = false <;>
      simp [generate_content_for_topic, hc, heq, get_fallback_content]
  · intro m heq
    by_cases hc : cenv.is_configured = false <;>
      simp [generate_content_for_topic, hc, heq, get_fallback_content]
  · intro h topics sec hsec
    simp only [generate_newsletter_content, List.mem_map] at hsec
    obtain ⟨t, _, rfl⟩ := hsec
    simp [generate_content_for_topic, h, get_fallback_content]
  · intro env db f s; rfl

/-- Witness for C6 with no API key configured. -/
theorem claim_C6_witness :
    (generate_content_for_topic apiDownEnv "Agentic AI systems" 200).source
      = "fallback"
    ∧ (manual_run samplePassEnv sampleDb noFaults initialState).1.1 = true :=
  ⟨(claim_C6 apiDownEnv "Agentic AI systems" 200).1 rfl,
    (claim_C6 apiDownEnv "Agentic AI systems" 200).2.2.2.2 samplePassEnv
      sampleDb noFaults initialState⟩

/-- C10: `generate_newsletter_content` yields one section per input topic,
in input order, with `sections[i].topic = topics[i]` and `topics_count`
equal to the input length (including the empty list). -/
theorem claim_C10 (cenv : ContentEnv) (topics : List String) :
    (generate_newsletter_content cenv topics).sections.length = topics.length
    ∧ (generate_newsletter_content cenv topics).topics_count = topics.length
    ∧ ∀ i : Nat,
        ((generate_newsletter_content cenv topics).sections[i]?).map
            NewsSection.topic
          = topics[i]? := by
  refine ⟨?_, rfl, ?_⟩
  · simp [generate_newsletter_content]
  · intro i
    simp only [generate_newsletter_content, List.getElem?_map]
    cases topics[i]? <;> rfl

/-! ## Generation-pass lemmas -/

theorem insertRows_ok (f : FaultModel) (h : f.insertFailsAt = none)
    (tj cs : String) (today : Nat) :
    ∀ (emails : List String) (idx : Nat) (staged : List LogRow) (count : Nat),
      insertRows f tj cs today emails idx staged count =
        Except.ok
          (staged ++ emails.map (fun e =>
            { subscriber_email := e, topics := tj, content := cs,
              sent_at := today, success := true }),
            idx + emails.length, count + emails.length) := by
  intro emails
  induction emails with
  | nil => intro idx staged count; simp [insertRows]
  | cons e rest ih =>
      intro idx staged count
      rw [insertRows, if_neg (by simp [h]), ih]
      simp [List.append_assoc]
      omega

theorem processGroups_ok (env : PassEnv) (f : FaultModel)
    (h : f.insertFailsAt = none) :
    ∀ (groups : List (String × List String)) (idx : Nat)
      (staged : List LogRow) (stats : PassStats),
      (∀ g ∈ groups, (parseJsonStringList g.1).isSome = true) →
      processGroups env f groups idx staged stats =
        Except.ok (staged ++ groups.flatMap (groupRows env),
          groupStats env stats groups, 0) := by
  intro groups
  induction groups with
  | nil =>
      intro idx staged stats _
      simp [processGroups, groupStats]
  | cons g rest ih =>
      intro idx staged stats hp
      obtain ⟨topics, hts⟩ := Option.isSome_iff_exists.mp
        (hp g (List.mem_cons_self g rest))
      rw [processGroups, hts]
      simp only []
      rw [insertRows_ok f h]
      simp only []
      rw [ih _ _ _ (fun g' hg' => hp g' (List.mem_cons_of_mem g hg'))]
      have hrows : g.2.map (fun e =>
          ({ subscriber_email := e, topics := g.1,
             content := dumpsContent
               (generate_newsletter_content env.contentEnv topics),
             sent_at := env.today, success := true } : LogRow))
          = groupRows env g := by
        simp [groupRows, hts]
      rw [hrows]
      have hstats : groupStats env
          { providerCalls := stats.providerCalls + 1,
            htmlRenders := stats.htmlRenders +
              if env.emailConfigured = true then 1 else 0,
            dispatchCalls := stats.dispatchCalls,
            newsletters_generated :=
              stats.newsletters_generated + g.2.length }
          rest = groupStats env stats (g :: rest) := by
        simp only [groupStats, PassStats.mk.injEq, List.length_cons,
          List.map_cons, List.sum_cons]
        refine ⟨by omega, ?_, trivial, by omega⟩
        cases env.emailConfigured
        · simp
        · simp
          omega
      rw [hstats]
      simp [List.append_assoc]

theorem addToGroup_map_fst (acc : List (String × List String))
    (tj email : String) :
    (addToGroup acc tj email).map Prod.fst
      = keyStep (acc.map Prod.fst) tj := by
  induction acc with
  | nil => simp [addToGroup, keyStep]
  | cons g rest ih =>
      by_cases hg : g.1 = tj
      · simp [addToGroup, hg, keyStep]
      · rw [addToGroup, if_neg hg]
        simp only [List.map_cons, ih, keyStep]
        by_cases hm : tj ∈ rest.map Prod.fst <;>
          simp [hm, hg, Ne.symm hg]

theorem buildGroups_map_fst (subs : List (String × String)) :
    (buildGroups subs).map Prod.fst = distinctKeys (subs.map Prod.snd) := by
  suffices h : ∀ (l : List (String × String))
      (acc : List (String × List String)),
      (l.foldl (fun a p => addToGroup a p.2 p.1) acc).map Prod.fst
        = (l.map Prod.snd).foldl keyStep (acc.map Prod.fst) by
    simpa [buildGroups, distinctKeys] using h subs []
  intro l
  induction l with
  | nil => intro acc; rfl
  | cons p rest ih =>
      intro acc
      simp only [List.foldl_cons, List.map_cons, ih, addToGroup_map_fst]

theorem mem_distinctKeys (l : List String) (a : String) :
    a ∈ distinctKeys l ↔ a ∈ l := by
  suffices h : ∀ (l : List String) (acc : List String),
      a ∈ l.foldl keyStep acc ↔ a ∈ acc ∨ a ∈ l by
    simpa [distinctKeys] using h l []
  intro l
  induction l with
  | nil => intro acc; simp
  | cons k rest ih =>
      intro acc
      rw [List.foldl_cons, ih]
      have hk : a ∈ keyStep acc k ↔ a ∈ acc ∨ a = k := by
        by_cases hm : k ∈ acc
        · simp only [keyStep, if_pos hm]
          constructor
          · exact fun h => Or.inl h
          · rintro (h | rfl)
            · exact h
            · exact hm
        · simp [keyStep, hm]
      rw [hk]
      simp only [List.mem_cons]
      tauto

theorem nodup_distinctKeys (l : List String) :
    (distinctKeys l).Nodup := by
  suffices h : ∀ (l : List String) (acc : List String),
      acc.Nodup → (l.foldl keyStep acc).Nodup by
    exact h l [] List.nodup_nil
  intro l
  induction l with
  | nil => intro acc h; simpa using h
  | cons k rest ih =>
      intro acc h
      rw [List.foldl_cons]
      apply ih
      by_cases hm : k ∈ acc
      · simpa [keyStep, hm] using h
      · rw [keyStep, if_neg hm, List.nodup_append]
        refine ⟨h, List.nodup_singleton k, ?_⟩
        intro a ha hb
        simp only [List.mem_singleton] at hb
        subst hb
        exact hm ha

theorem length_distinctKeys (l : List String) :
    (distinctKeys l).length = l.dedup.length := by
  have h1 : (distinctKeys l).toFinset = l.toFinset := by
    ext a
    simp [List.mem_toFinset, mem_distinctKeys]
  calc (distinctKeys l).length
      = (distinctKeys l).toFinset.card :=
        (List.toFinset_card_of_nodup (nodup_distinctKeys l)).symm
    _ = l.toFinset.card := by rw [h1]
    _ = l.dedup.length := List.card_toFinset l

theorem buildGroups_keys_parse (db : StoreDB)
    (hp : ∀ p ∈ db.subscribers, (parseJsonStringList p.2).isSome = true) :
    ∀ g ∈ buildGroups db.subscribers,
      (parseJsonStringList g.1).isSome = true := by
  intro g hg
  have h1 : g.1 ∈ (buildGroups db.subscribers).map Prod.fst :=
    List.mem_map_of_mem Prod.fst hg
  rw [buildGroups_map_fst, mem_distinctKeys, List.mem_map] at h1
  obtain ⟨p, hp2, he⟩ := h1
  rw [← he]
  exact hp p hp2

theorem inner_ok (env : PassEnv) (db : StoreDB)
    (hp : ∀ p ∈ db.subscribers, (parseJsonStringList p.2).isSome = true) :
    generate_and_send_inner env db noFaults =
      Except.ok
        ({ db with newsletter_logs :=
            db.newsletter_logs ++
              (buildGroups db.subscribers).flatMap (groupRows env) },
          groupStats env zeroStats (buildGroups db.subscribers)) := by
  obtain ⟨subs, logs⟩ := db
  by_cases hemp : subs = []
  · subst hemp
    simp [generate_and_send_inner, noFaults, buildGroups, groupStats,
      zeroStats]
  · rw [generate_and_send_inner, if_neg (by simp [noFaults]),
      if_neg hemp,
      processGroups_ok env noFaults rfl _ _ _ _
        (buildGroups_keys_parse _ hp)]
    simp [noFaults]

/-! ## Grouping preserves the subscriber population -/

theorem addToGroup_sizes (acc : List (String × List String))
    (tj e : String) :
    ((addToGroup acc tj e).map (fun g => g.2.length)).sum
      = ((acc.map (fun g => g.2.length)).sum) + 1 := by
  induction acc with
  | nil => simp [addToGroup]
  | cons g rest ih =>
      by_cases hg : g.1 = tj
      · rw [addToGroup, if_pos hg]
        simp
        omega
      · rw [addToGroup, if_neg hg]
        simp [ih]
        omega

theorem buildGroups_sizes (subs : List (String × String)) :
    ((buildGroups subs).map (fun g => g.2.length)).sum = subs.length := by
  suffices h : ∀ (l : List (String × String))
      (acc : List (String × List String)),
      ((l.foldl (fun a p => addToGroup a p.2 p.1) acc).map
          (fun g => g.2.length)).sum
        = ((acc.map (fun g => g.2.length)).sum) + l.length by
    simpa [buildGroups] using h subs []
  intro l
  induction l with
  | nil => intro acc; simp
  | cons p rest ih =>
      intro acc
      rw [List.foldl_cons, ih, addToGroup_sizes]
      simp
      omega

theorem addToGroup_flat_count (acc : List (String × List String))
    (tj e x : String) :
    ((addToGroup acc tj e).flatMap (fun g => g.2)).count x
      = ((acc.flatMap (fun g => g.2)).count x)
        + (if x = e then 1 else 0) := by
  induction acc with
  | nil =>
      by_cases hx : x = e <;>
        simp [addToGroup, List.count_singleton, hx, Ne.symm]
  | cons g rest ih =>
      by_cases hg : g.1 = tj
      · rw [addToGroup, if_pos hg]
        simp only [List.flatMap_cons, List.count_append,
          List.append_assoc]
        by_cases hx : x = e
        · subst hx
          have h1 : List.count x [x] = 1 := by simp
          rw [h1, if_pos rfl]
          omega
        · have h1 : List.count x [e] = 0 := by
            rw [List.count_eq_zero]
            simp [hx]
          rw [h1, if_neg hx]
          omega
      · rw [addToGroup, if_neg hg]
        simp only [List.flatMap_cons, List.count_append, ih]
        omega

theorem buildGroups_flat_count (subs : List (String × String))
    (x : String) :
    ((buildGroups subs).flatMap (fun g => g.2)).count x
      = (subs.map Prod.fst).count x := by
  suffices h : ∀ (l : List (String × String))
      (acc : List (String × List String)),
      ((l.foldl (fun a p => addToGroup a p.2 p.1) acc).flatMap
          (fun g => g.2)).count x
        = ((acc.flatMap (fun g => g.2)).count x)
          + ((l.map Prod.fst).count x) by
    simpa [buildGroups] using h subs []
  intro l
  induction l with
  | nil => intro acc; simp
  | cons p rest ih =>
      intro acc
      rw [List.foldl_cons, ih, addToGroup_flat_count, List.map_cons]
      by_cases hx : x = p.1
      · subst hx
        rw [List.count_cons_self, if_pos rfl]
        omega
      · rw [List.count_cons_of_ne hx, if_neg hx]
        omega

theorem groupRows_length (env : PassEnv) (g : String × List String) :
    (groupRows env g).length = g.2.length := by
  simp [groupRows]

theorem groupRows_success (env : PassEnv) (g : String × List String) :
    ∀ r ∈ groupRows env g, r.success = true := by
  intro r hr
  simp only [groupRows, List.mem_map] at hr
  obtain ⟨e, _, rfl⟩ := hr
  rfl

theorem groupRows_emails (env : PassEnv) (g : String × List String) :
    (groupRows env g).map (fun r => r.subscriber_email) = g.2 := by
  simp only [groupRows, List.map_map]
  exact List.map_id g.2

theorem newRows_length (env : PassEnv) (subs : List (String × String)) :
    ((buildGroups subs).flatMap (groupRows env)).length = subs.length := by
  rw [List.length_flatMap]
  have h : List.map (List.length ∘ groupRows env) (buildGroups subs)
      = (buildGroups subs).map (fun g => g.2.length) := by
    simp [Function.comp, groupRows_length]
  rw [h, buildGroups_sizes]

theorem newRows_success (env : PassEnv) (subs : List (String × String)) :
    ∀ r ∈ (buildGroups subs).flatMap (groupRows env), r.success = true := by
  intro r hr
  rw [List.mem_flatMap] at hr
  obtain ⟨g, _, hrg⟩ := hr
  exact groupRows_success env g r hrg

theorem newRows_email_count (env : PassEnv) (subs : List (String × String))
    (x : String) :
    (((buildGroups subs).flatMap (groupRows env)).map
        (fun r => r.subscriber_email)).count x
      = (subs.map Prod.fst).count x := by
  rw [List.map_flatMap]
  have h : ((buildGroups subs).flatMap
        (fun g => (groupRows env g).map (fun r => r.subscriber_email)))
      = (buildGroups subs).flatMap (fun g => g.2) := by
    simp [groupRows_emails]
  rw [h, buildGroups_flat_count]

/-! ## Claim theorems: generation pass -/

/-- C1: a fault-free pass calls the Content Provider exactly once per
distinct stored topic serialization (byte-for-byte comparison of the
stored JSON strings), so the number of provider calls equals the number of
distinct serializations among the active subscribers, not the subscriber
count; serializations differing only in order are distinct strings and
therefore cost separate calls. -/
theorem claim_C1 (env : PassEnv) (db : StoreDB) (s : SchedulerState)
    (hp : ∀ p ∈ db.subscribers, (parseJsonStringList p.2).isSome = true) :
    ((generate_and_send_newsletters env db noFaults s).stats.map
        PassStats.providerCalls)
      = some ((db.subscribers.map Prod.snd).dedup.length) := by
  have hlen : (buildGroups db.subscribers).length
      = (db.subscribers.map Prod.snd).dedup.length := by
    rw [← length_distinctKeys, ← buildGroups_map_fst, List.length_map]
  simp [generate_and_send_newsletters, inner_ok env db hp, groupStats,
    zeroStats, hlen]

/-- Witness for C1 on the spec scenario: three subscribers, two sharing a
stored serialization and one holding the reversed order, cost exactly two
provider calls. -/
theorem claim_C1_witness :
    ((generate_and_send_newsletters samplePassEnv sampleDb noFaults
        initialState).stats.map PassStats.providerCalls) = some 2 :=
  (claim_C1 samplePassEnv sampleDb initialState (by decide)).trans (by decide)

/-- C2 as implemented (code bug evidence): with the Subscription Store
unreachable (the connect/SELECT raises), `manual_run` still returns the
success tuple — the pass's own catch-all handler swallows the exception
before `manual_run`'s `except` can see it — while the store and the
running flag are indeed unaffected. -/
theorem claim_C2_code_behavior :
    (manual_run samplePassEnv sampleDb fetchFault initialState).1
      = (true, "Newsletter generation completed successfully")
    ∧ (manual_run samplePassEnv sampleDb fetchFault initialState).2.2
        = sampleDb
    ∧ (manual_run samplePassEnv sampleDb fetchFault
          initialState).2.1.is_running = initialState.is_running :=
  ⟨rfl, rfl, rfl⟩

/-- C5 amended: with zero active subscribers and a reachable store,
`manual_run` succeeds, the pass makes zero provider calls and writes zero
Run Log rows, and the manual-trigger HTTP response reports
`newsletters_generated` equal to the count of Run Log rows already dated
the current day — which is 0 exactly when no such rows pre-exist. -/
theorem claim_C5 (env : PassEnv) (db : StoreDB) (f : FaultModel)
    (s : SchedulerState) (hsub : db.subscribers = [])
    (hf : f.fetchFails = false) :
    (manual_run env db f s).1.1 = true
    ∧ (generate_and_send_newsletters env db f s).stats = some zeroStats
    ∧ (generate_and_send_newsletters env db f s).db.newsletter_logs
        = db.newsletter_logs
    ∧ (generate_newsletters_endpoint env db f s).1.newsletters_generated
        = some (countTodayLogs db env.today)
    ∧ (countTodayLogs db env.today = 0 →
        (generate_newsletters_endpoint env db f s).1.newsletters_generated
          = some 0) := by
  have hinner : generate_and_send_inner env db f
      = Except.ok (db, zeroStats) := by
    rw [generate_and_send_inner, if_neg (by simp [hf]), if_pos hsub]
  refine ⟨rfl, ?_, ?_, ?_, ?_⟩
  · simp [generate_and_send_newsletters, hinner]
  · simp [generate_and_send_newsletters, hinner]
  · simp [generate_newsletters_endpoint, manual_run,
      generate_and_send_newsletters, hinner]
  · intro h0
    simp [generate_newsletters_endpoint, manual_run,
      generate_and_send_newsletters, hinner, h0]

/-- Counterexample to C5 as frozen: with zero active subscribers but one
log row already written earlier the same day, the endpoint reports
`newsletters_generated = 1`, not 0, because it counts all of today's Run
Log rows rather than this pass's. -/
theorem claim_C5_counterexample :
    emptySubsDb.subscribers = []
    ∧ (generate_newsletters_endpoint samplePassEnv emptySubsDb noFaults
        initialState).1.success = true
    ∧ (generate_newsletters_endpoint samplePassEnv emptySubsDb noFaults
        initialState).1.newsletters_generated ≠ some 0 := by
  refine ⟨rfl, rfl, ?_⟩
  decide

/-- Witness for the amended C5: with zero subscribers and no pre-existing
rows dated today, the endpoint does report zero. -/
theorem claim_C5_witness :
    (generate_newsletters_endpoint samplePassEnv emptyLogDb noFaults
        initialState).1.newsletters_generated = some 0 :=
  (claim_C5 samplePassEnv emptyLogDb noFaults initialState rfl rfl).2.2.2.2
    rfl

/-- C7: the pass's Run Log rows are committed in one transaction at the
end; any failure reaching the pass boundary — in particular a commit
failure after every row was staged — leaves the durable log without any
row of this pass, and a fault-free pass appends all its rows in the single
final commit. -/
theorem claim_C7 (env : PassEnv) (db : StoreDB) (f : FaultModel)
    (s : SchedulerState) :
    ((∃ e, generate_and_send_inner env db f = Except.error e) →
      (generate_and_send_newsletters env db f s).db = db)
    ∧ (f.commitFails = true →
        (generate_and_send_newsletters env db f s).db = db)
    ∧ ((∀ p ∈ db.subscribers, (parseJsonStringList p.2).isSome = true) →
        (generate_and_send_newsletters env db noFaults s).db.newsletter_logs
          = db.newsletter_logs ++
              (buildGroups db.subscribers).flatMap (groupRows env)) := by
  refine ⟨?_, ?_, ?_⟩
  · rintro ⟨e, he⟩
    simp [generate_and_send_newsletters, he]
  · intro hc
    by_cases hf : f.fetchFails = true
    · simp [generate_and_send_newsletters, generate_and_send_inner, hf]
    · by_cases hemp : db.subscribers = []
      · simp [generate_and_send_newsletters, generate_and_send_inner, hf,
          hemp]
      · cases hpg : processGroups env f (buildGroups db.subscribers) 0 []
            zeroStats with
        | error e =>
            simp [generate_and_send_newsletters, generate_and_send_inner,
              hf, hemp, hpg]
        | ok t =>
            obtain ⟨staged, stats, idx⟩ := t
            simp [generate_and_send_newsletters, generate_and_send_inner,
              hf, hemp, hpg, hc]
  · intro hp
    simp [generate_and_send_newsletters, inner_ok env db hp]

/-- Witness for C7: a fault at the second insert (after one row was
staged) and a fault at the final commit (after all rows were staged) both
leave the committed log exactly as before the pass. -/
theorem claim_C7_witness :
    (generate_and_send_newsletters samplePassEnv sampleDb insertFault
        initialState).db = sampleDb
    ∧ (generate_and_send_newsletters samplePassEnv sampleDb commitFault
        initialState).db = sampleDb :=
  ⟨(claim_C7 samplePassEnv sampleDb insertFault initialState).1
      ⟨"INSERT INTO newsletter_logs raised", rfl⟩,
    (claim_C7 samplePassEnv sampleDb commitFault initialState).2.1 rfl⟩

/-- C8: with the Mail Dispatch Provider unconfigured, a fault-free pass
still calls the provider once per topic group, performs zero HTML renders
and zero dispatch attempts, completes successfully, and appends exactly
one `success = true` Run Log row per active subscriber (the multiset of
row emails equals the multiset of subscriber emails). -/
theorem claim_C8 (env : PassEnv) (db : StoreDB) (s : SchedulerState)
    (he : env.emailConfigured = false)
    (hp : ∀ p ∈ db.subscribers, (parseJsonStringList p.2).isSome = true) :
    ((generate_and_send_newsletters env db noFaults s).stats.map
        PassStats.htmlRenders = some 0)
    ∧ ((generate_and_send_newsletters env db noFaults s).stats.map
        PassStats.dispatchCalls = some 0)
    ∧ ((generate_and_send_newsletters env db noFaults s).stats.map
        PassStats.providerCalls
          = some (buildGroups db.subscribers).length)
    ∧ ((generate_and_send_newsletters env db noFaults s).db.newsletter_logs
        = db.newsletter_logs ++
            (buildGroups db.subscribers).flatMap (groupRows env))
    ∧ (((buildGroups db.subscribers).flatMap (groupRows env)).length
        = db.subscribers.length)
    ∧ (∀ r ∈ (buildGroups db.subscribers).flatMap (groupRows env),
        r.success = true)
    ∧ (∀ x, (((buildGroups db.subscribers).flatMap (groupRows env)).map
          (fun r => r.subscriber_email)).count x
        = (db.subscribers.map Prod.fst).count x) := by
  refine ⟨?_, ?_, ?_, ?_, newRows_length env db.subscribers,
    newRows_success env db.subscribers,
    fun x => newRows_email_count env db.subscribers x⟩
  all_goals
    simp [generate_and_send_newsletters, inner_ok env db hp, groupStats,
      zeroStats, he]

/-- Witness for C8 on the spec scenario with the email service
unconfigured: no renders, and three rows for three subscribers. -/
theorem claim_C8_witness :
    ((generate_and_send_newsletters samplePassEnv sampleDb noFaults
        initialState).stats.map PassStats.htmlRenders = some 0)
    ∧ ((buildGroups sampleDb.subscribers).flatMap
        (groupRows samplePassEnv)).length = sampleDb.subscribers.length :=
  ⟨(claim_C8 samplePassEnv sampleDb initialState rfl (by decide)).1,
    (claim_C8 samplePassEnv sampleDb initialState rfl
      (by decide)).2.2.2.2.1⟩

end AINewsletter
